import Mathlib

/-!
Verification of the VoiceFlow frontend (React/TypeScript) and of the
spec-level contracts of its Python backend collaborators.

Shallow embedding conventions:
- TypeScript union string types become inductive types plus a list of the
  literal strings appearing in the source union.
- React `useState`/`useRef` cells become fields of an explicit state record;
  event handlers become state-transition functions that also return the list
  of collaborator calls they make (callbacks invoked, api calls issued).
- `async` api calls are modelled by passing their outcome (`Except`) as an
  argument to the handler that awaits them.
- Backend components absent from the repository snapshot (the Python
  app controller, model manager and download worker) are modelled from the
  spec where a claim needs them; each such definition is marked
  `Modelled from the spec`.
-/

namespace VoiceFlow

/-! ## Popup.tsx -/

namespace Popup

/-- The `PopupState` union type from `src/pages/Popup.tsx` line 3:
`type PopupState = "idle" | "recording" | "processing"`. -/
inductive PopupState
  | idle
  | recording
  | processing
  deriving DecidableEq, Repr

/-- The literal strings of the `PopupState` union in `src/pages/Popup.tsx`. -/
def popupStateStrings : List String := ["idle", "recording", "processing"]

/-- Parsing a string into the `PopupState` union: only the three literals of
the union type are representable popup states. -/
def popupStateOfString (s : String) : Option PopupState :=
  if s = "idle" then some PopupState.idle
  else if s = "recording" then some PopupState.recording
  else if s = "processing" then some PopupState.processing
  else none

/-- The `handleState` handler of `Popup.tsx` (line 24): on a `popup-state`
event it replaces the component state with the state carried by the event. -/
def handleState (_st : PopupState) (e : PopupState) : PopupState := e

/-- The sequence of states the popup component passes through, starting from
the initial `useState` value `"idle"` and applying `handleState` for each
delivered `popup-state` event. -/
def observedStates (events : List PopupState) : List PopupState :=
  events.scanl handleState PopupState.idle

end Popup

/-! ## lib/audio.ts -/

namespace Audio

/-- A JavaScript `Error` object, reduced to its `message` property. -/
structure JsError where
  message : String
  deriving DecidableEq, Repr

/-- A JavaScript value as far as `isInvalidAudioPayload` inspects it:
either an `Error` instance or some non-`Error` value. -/
inductive JsValue
  | error (e : JsError)
  | nonError
  deriving DecidableEq, Repr

/-- `export const INVALID_AUDIO_PAYLOAD = "Invalid audio payload"`
(`src/lib/audio.ts` line 1). -/
def INVALID_AUDIO_PAYLOAD : String := "Invalid audio payload"

/-- `isInvalidAudioPayload` (`src/lib/audio.ts` lines 3 to 5):
`err instanceof Error && err.message === INVALID_AUDIO_PAYLOAD`. -/
def isInvalidAudioPayload : JsValue → Bool
  | JsValue.error e => e.message = INVALID_AUDIO_PAYLOAD
  | JsValue.nonError => false

/-- The browser facilities used inside the `try` block of `base64ToBlobUrl`:
`atob` (which throws on malformed base64) and the
`Uint8Array.from` / `new Blob` / `URL.createObjectURL` pipeline, modelled as
a single fallible step from the decoded bytes and mime type to a URL. -/
structure BrowserEnv where
  atob : String → Except JsError (List Nat)
  createObjectURL : List Nat → String → Except JsError String

/-- `base64ToBlobUrl` (`src/lib/audio.ts` lines 7 to 17): runs the decode
pipeline inside `try`; any exception is caught and rethrown as
`new Error(INVALID_AUDIO_PAYLOAD)`. -/
def base64ToBlobUrl (env : BrowserEnv) (base64 mime : String) :
    Except JsError String :=
  match (env.atob base64).bind (fun bytes => env.createObjectURL bytes mime) with
  | Except.ok url => Except.ok url
  | Except.error _ => Except.error ⟨INVALID_AUDIO_PAYLOAD⟩

end Audio

/-! ## lib/types.ts -/

namespace Types

/-- The `DownloadProgress` interface (`src/lib/types.ts` lines 60 to 67).
JavaScript numbers are embedded as `Int`; the numeric values play no role in
the claims about the snapshot shape. -/
structure DownloadProgress where
  model : String
  percent : Int
  downloadedBytes : Int
  totalBytes : Int
  speedBps : Int
  etaSeconds : Int
  deriving DecidableEq, Repr

/-- The field names of the `DownloadProgress` interface, in source order
(`src/lib/types.ts` lines 60 to 67). -/
def downloadProgressFields : List String :=
  ["model", "percent", "downloadedBytes", "totalBytes", "speedBps", "etaSeconds"]

/-- The `DownloadComplete` interface (`src/lib/types.ts` lines 69 to 75).
Optional fields become `Option`; an absent field is `none` and JavaScript
truthiness of an optional boolean is `(· = some true)`. -/
structure DownloadComplete where
  model : String
  success : Bool
  cancelled : Option Bool := none
  alreadyCached : Option Bool := none
  error : Option String := none
  deriving DecidableEq, Repr

/-- The result shape of `api.startModelDownload`
(`src/lib/api.ts` lines 82 to 84):
`{ success: boolean; alreadyCached?: boolean; started?: boolean }`. -/
structure StartModelDownloadResult where
  success : Bool
  alreadyCached : Option Bool := none
  started : Option Bool := none
  deriving DecidableEq, Repr

end Types

/-! ## components/ModelDownloadProgress.tsx -/

namespace MDP

open Types

/-- The `DownloadState` union of `ModelDownloadProgress.tsx` (line 34):
`"idle" | "downloading" | "completed" | "cancelled" | "error"`. -/
inductive DownloadState
  | idle
  | downloading
  | completed
  | cancelled
  | error
  deriving DecidableEq, Repr

/-- The mutable cells of the `ModelDownloadProgress` component:
`useState` hooks `state`, `progress`, `error` and the `useRef` cell
`hasStarted` (lines 42 to 45). -/
structure CompState where
  state : DownloadState
  progress : Option DownloadProgress
  error : Option String
  hasStarted : Bool
  deriving DecidableEq, Repr

/-- The initial component state on mount: `state = "idle"`,
`progress = null`, `error = null`, `hasStarted.current = false`. -/
def initComp : CompState :=
  { state := DownloadState.idle, progress := none, error := none,
    hasStarted := false }

/-- An observable call the component makes: an api invocation or a prop
callback invocation. -/
inductive Call
  | apiStartModelDownload (model : String)
  | apiCancelModelDownload
  | onCompleteTrue
  | onCompleteFalse
  | onCancelCb
  deriving DecidableEq, Repr

/-- `handleProgress` (lines 48 to 50): stores the event detail in the
`progress` state. -/
def handleProgress (s : CompState) (p : DownloadProgress) : CompState :=
  { s with progress := some p }

/-- `handleComplete` (lines 53 to 70): on success move to `completed` and
call `onComplete(true)`; on a cancelled result move to `cancelled` and call
`onCancel`; otherwise move to `error`, record
`result.error || "Download failed"` and call `onComplete(false)`. -/
def handleComplete (s : CompState) (c : DownloadComplete) :
    CompState × List Call :=
  if c.success then
    ({ s with state := DownloadState.completed }, [Call.onCompleteTrue])
  else if c.cancelled = some true then
    ({ s with state := DownloadState.cancelled }, [Call.onCancelCb])
  else
    ({ s with
        state := DownloadState.error,
        error := some (c.error.getD "Download failed") },
     [Call.onCompleteFalse])

/-- `startDownload` (lines 91 to 108): sets `state = "downloading"` and
`error = null`, awaits `api.startModelDownload` (its outcome is the `res`
argument), completes immediately when the model was already cached, and on a
thrown error moves to the `error` state with the thrown message and calls
`onComplete(false)`. -/
def startDownload (s : CompState) (model : String)
    (res : Except String StartModelDownloadResult) : CompState × List Call :=
  let s1 : CompState := { s with state := DownloadState.downloading, error := none }
  match res with
  | Except.ok r =>
      if r.alreadyCached = some true then
        ({ s1 with state := DownloadState.completed },
         [Call.apiStartModelDownload model, Call.onCompleteTrue])
      else (s1, [Call.apiStartModelDownload model])
  | Except.error msg =>
      ({ s1 with state := DownloadState.error, error := some msg },
       [Call.apiStartModelDownload model, Call.onCompleteFalse])

/-- The auto-start effect (lines 84 to 89): when `autoStart` holds, the
`hasStarted` ref is still false and the state is `"idle"`, it sets the ref
and invokes `startDownload`; otherwise it does nothing. -/
def effectRun (s : CompState) (autoStart : Bool) (model : String)
    (res : Except String StartModelDownloadResult) : CompState × List Call :=
  if autoStart ∧ s.hasStarted = false ∧ s.state = DownloadState.idle then
    startDownload { s with hasStarted := true } model res
  else (s, [])

/-- `handleCancel` (lines 110 to 117): calls `api.cancelModelDownload` and
leaves the component state untouched, waiting for the complete event. -/
def handleCancel (s : CompState) : CompState × List Call :=
  (s, [Call.apiCancelModelDownload])

/-- `handleRetry` (lines 119 to 125): resets `hasStarted`, state, error and
progress, then invokes `startDownload`. -/
def handleRetry (s : CompState) (model : String)
    (res : Except String StartModelDownloadResult) : CompState × List Call :=
  startDownload
    { s with
        hasStarted := false,
        state := DownloadState.idle,
        error := none,
        progress := none }
    model res

/-- The events a mounted `ModelDownloadProgress` component can process:
effect (re-)runs, DOM `download-progress` and `download-complete` events,
the cancel button, and the retry button. -/
inductive Ev
  | effect (autoStart : Bool) (res : Except String StartModelDownloadResult)
  | progressEvt (p : DownloadProgress)
  | completeEvt (c : DownloadComplete)
  | cancelClick
  | retryClick (res : Except String StartModelDownloadResult)

/-- One step of the component, dispatching an event to its handler. -/
def step (model : String) (s : CompState) : Ev → CompState × List Call
  | Ev.effect autoStart res => effectRun s autoStart model res
  | Ev.progressEvt p => (handleProgress s p, [])
  | Ev.completeEvt c => handleComplete s c
  | Ev.cancelClick => handleCancel s
  | Ev.retryClick res => handleRetry s model res

/-- Running the component over a list of events, accumulating all calls. -/
def run (model : String) (s : CompState) : List Ev → CompState × List Call
  | [] => (s, [])
  | ev :: evs =>
      let (s1, cs1) := step model s ev
      let (s2, cs2) := run model s1 evs
      (s2, cs1 ++ cs2)

/-- Whether an event is the retry button. -/
def isRetry : Ev → Bool
  | Ev.retryClick _ => true
  | _ => false

/-- How many `api.startModelDownload` invocations a call list contains. -/
def startCalls (cs : List Call) : Nat :=
  cs.countP (fun c => match c with
    | Call.apiStartModelDownload _ => true
    | _ => false)

end MDP

/-! ## App.tsx -/

namespace App

/-- The `Settings` interface (`src/lib/types.ts` lines 1 to 17). -/
structure Settings where
  language : String
  model : String
  device : String
  autoStart : Bool
  retention : Int
  theme : String
  onboardingComplete : Bool
  microphone : Int
  saveAudioToHistory : Bool
  disableHistoryStorage : Bool
  holdHotkey : String
  holdHotkeyEnabled : Bool
  toggleHotkey : String
  toggleHotkeyEnabled : Bool
  deriving DecidableEq, Repr

/-- The `ModelInfo` interface (`src/lib/types.ts` lines 54 to 58). -/
structure ModelInfo where
  name : String
  sizeBytes : Int
  cached : Bool
  deriving DecidableEq, Repr

/-- The `useState` cells of `AppRouter` (`src/App.tsx` lines 30 to 33). -/
structure AppState where
  loading : Bool
  onboardingComplete : Bool
  modelMissing : Bool
  currentModel : String
  deriving DecidableEq, Repr

/-- The initial `AppRouter` state:
`loading = true`, `onboardingComplete = false`, `modelMissing = false`,
`currentModel = ""`. -/
def initApp : AppState :=
  { loading := true, onboardingComplete := false, modelMissing := false,
    currentModel := "" }

/-- The startup effect of `AppRouter` (`src/App.tsx` lines 38 to 75): on the
popup route it only clears `loading`; otherwise it awaits `getSettings`
(outcome `settingsRes`), records onboarding status, model and theme, and,
when onboarding is complete, awaits `getModelInfo` for the configured model
(outcome `modelInfoRes`); a missing cache opens the recovery modal by
setting `modelMissing`, a thrown cache check is swallowed, and a thrown
settings call falls back to onboarding; `loading` is cleared in `finally`. -/
def checkStartup (isPopupRoute : Bool)
    (settingsRes : Except String Settings)
    (modelInfoRes : String → Except String ModelInfo) : AppState :=
  if isPopupRoute then { initApp with loading := false }
  else
    match settingsRes with
    | Except.error _ =>
        { initApp with onboardingComplete := false, loading := false }
    | Except.ok st =>
        let s1 : AppState :=
          { initApp with
              onboardingComplete := st.onboardingComplete,
              currentModel := st.model }
        let s2 : AppState :=
          if st.onboardingComplete then
            match modelInfoRes st.model with
            | Except.ok info =>
                if info.cached then s1 else { s1 with modelMissing := true }
            | Except.error _ => s1
          else s1
        { s2 with loading := false }

end App

/-! ## transcription.py, `load_model` (quoted in docs/profiling,
`src/unnamed/part_011` lines 30 to 47) -/

namespace Lifecycle

/-- The mutable fields of the model lifecycle manager that `load_model`
touches: `_current_model_name`, `_current_device`, `_model` (the resident
`WhisperModel`, represented by the repo id it was constructed from), and
whether the idle-eviction timer is pending. -/
structure MLState where
  currentModelName : Option String
  currentDevice : Option String
  model : Option String
  idleTimerPending : Bool
  deriving DecidableEq, Repr

/-- The manager state with nothing resident and no timer pending. -/
def emptyML : MLState :=
  { currentModelName := none, currentDevice := none, model := none,
    idleTimerPending := false }

/-- `load_model(model_name, device_preference)` from the quoted
`transcription.py` lines 28 to 67: first cancels the idle timer, resolves
the device from the preference (`resolve` abstracts the resolution), skips
the reload when `_current_model_name`, `_current_device` and a non-null
`_model` already match, and otherwise constructs a new `WhisperModel` and
records name and device. Returns the new state and whether a load was
performed. -/
def load_model (resolve : String → String) (s : MLState)
    (modelName devicePref : String) : MLState × Bool :=
  let s0 : MLState := { s with idleTimerPending := false }
  let device := resolve devicePref
  if s0.currentModelName = some modelName ∧ s0.currentDevice = some device ∧
      s0.model ≠ none then
    (s0, false)
  else
    ({ s0 with
        currentModelName := some modelName,
        currentDevice := some device,
        model := some modelName },
     true)

/-- Calling `load_model` with the same arguments `n` times in a row,
counting the loads performed. -/
def loadRepeat (resolve : String → String) (s : MLState)
    (modelName devicePref : String) : Nat → MLState × Nat
  | 0 => (s, 0)
  | n + 1 =>
      let (s1, did) := load_model resolve s modelName devicePref
      let (s2, k) := loadRepeat resolve s1 modelName devicePref n
      (s2, (if did then 1 else 0) + k)

end Lifecycle

/-! ## Modelled backend components (Python sources absent from the
repository snapshot) -/

namespace Backend

open Types

/-- Modelled from the spec: the state of the Python `ModelDownloadManager`
(model manager module absent from the snapshot; spec section 4.3) — an
at-most-one `DownloadJob`, its cooperative cancellation flag, the latest
throttled progress snapshot, and the error message of the last failure. -/
structure DlMgrState where
  running : Bool
  cancelFlag : Bool
  snapshot : Option DownloadProgress
  errorMsg : Option String
  deriving DecidableEq, Repr

/-- The idle download manager: no job, no flag, no snapshot, no error. -/
def dlIdle : DlMgrState :=
  { running := false, cancelFlag := false, snapshot := none, errorMsg := none }

/-- The result of `ModelDownloadManager.start`, together with the number of
background workers the call spawned. -/
structure StartOutcome where
  alreadyRunning : Bool
  started : Bool
  workersSpawned : Nat
  deriving DecidableEq, Repr

/-- Modelled from the spec: `ModelDownloadManager.start(modelId)` is
single-flight — while a job is running it returns `alreadyRunning = true`
and spawns nothing; otherwise it clears the previous error, spawns one
background worker and returns `started = true` (spec section 4.3). -/
def dlStart (s : DlMgrState) (_modelId : String) : DlMgrState × StartOutcome :=
  if s.running then
    (s, { alreadyRunning := true, started := false, workersSpawned := 0 })
  else
    ({ s with running := true, cancelFlag := false, errorMsg := none },
     { alreadyRunning := false, started := true, workersSpawned := 1 })

/-- Modelled from the spec: `ModelDownloadManager.progress()` returns the
latest throttled snapshot and does not mutate the manager
(spec section 4.3). -/
def dlProgress (s : DlMgrState) : DlMgrState × Option DownloadProgress :=
  (s, s.snapshot)

/-- Modelled from the spec: a sampling tick of the download worker replaces
the latest throttled snapshot (spec section 4.3). -/
def dlSample (s : DlMgrState) (p : DownloadProgress) : DlMgrState :=
  { s with snapshot := some p }

/-- An event emitted by the download worker towards the event bridge:
either a progress snapshot tick or the terminal completion event. -/
inductive DlEvent
  | progress
  | terminal (c : DownloadComplete)
  deriving DecidableEq, Repr

/-- Modelled from the spec: the download worker loop (worker module absent
from the snapshot; spec sections 4.3 and 5). The worker transfers one chunk
per sampling interval and checks the cooperative cancellation flag between
chunks: `remaining` chunks are left, and the flag becomes visible after
`flagIn` further checks. On seeing the flag it aborts with a terminal
cancelled snapshot; on running out of chunks it ends with a terminal
success snapshot. -/
def workerRun (modelId : String) : Nat → Nat → List DlEvent
  | _, 0 =>
      [DlEvent.terminal
        { model := modelId, success := false, cancelled := some true }]
  | 0, _ + 1 =>
      [DlEvent.terminal { model := modelId, success := true }]
  | r + 1, f + 1 => DlEvent.progress :: workerRun modelId r f

/-- Whether a worker event is a terminal success completion. -/
def isSuccessEvent : DlEvent → Bool
  | DlEvent.terminal c => c.success
  | DlEvent.progress => false

/-- Whether a worker event is a terminal cancelled completion. -/
def isCancelledEvent : DlEvent → Bool
  | DlEvent.terminal c => c.cancelled = some true
  | DlEvent.progress => false

/-- Modelled from the spec: the worker-thread boundary of the download
manager — the worker body either finishes or fails with a message, and the
boundary always converts the outcome into a terminal `DownloadComplete`
event carrying any error as data; nothing is thrown across the thread
boundary (spec sections 4.3 and 7). -/
def workerBoundary (modelId : String) (body : Except String Unit) :
    DownloadComplete :=
  match body with
  | Except.ok _ => { model := modelId, success := true }
  | Except.error msg =>
      { model := modelId, success := false, error := some msg }

/-- The controller states of the spec state machine (spec section 4.2). -/
inductive CtrlState
  | Idle
  | Recording
  | Loading
  | Transcribing
  deriving DecidableEq, Repr

/-- The outcome of one `onDeactivate` call: the state events emitted to the
presentation layer, whether a transcription ran, and how many times the
paste and persistence collaborators were invoked. -/
structure DeactivationOutcome where
  events : List CtrlState
  transcribed : Bool
  pasteCalls : Nat
  persistCalls : Nat
  finalState : CtrlState
  deriving DecidableEq, Repr

/-- Modelled from the spec: `SessionController.onDeactivate`
(app controller module absent from the snapshot; spec section 4.2). It
stops capture and inspects the captured buffer; below the minimum
duration/energy threshold the session is discarded silently and the
controller returns directly to Idle, with no transcription and no
collaborator call; otherwise the worker emits Loading only if a load is
actually required, transcribes, pastes once, persists unless history is
disabled, and returns to Idle. -/
def onDeactivate (modelResident : Bool) (historyDisabled : Bool)
    (durationMs thresholdMs : Nat) : DeactivationOutcome :=
  if durationMs < thresholdMs then
    { events := [CtrlState.Idle], transcribed := false, pasteCalls := 0,
      persistCalls := 0, finalState := CtrlState.Idle }
  else
    { events :=
        (if modelResident then [] else [CtrlState.Loading]) ++
          [CtrlState.Transcribing, CtrlState.Idle],
      transcribed := true,
      pasteCalls := 1,
      persistCalls := if historyDisabled then 0 else 1,
      finalState := CtrlState.Idle }

end Backend

end VoiceFlow

open VoiceFlow

/-- Claim C10: every error thrown by `base64ToBlobUrl` is an `Error` whose
message is `"Invalid audio payload"`, and `isInvalidAudioPayload` returns
`true` exactly for `Error` instances carrying that message, hence it
recognizes precisely the failures of `base64ToBlobUrl`. -/
theorem c10_invalid_audio_payload :
    (∀ (env : Audio.BrowserEnv) (b m : String) (e : Audio.JsError),
      Audio.base64ToBlobUrl env b m = Except.error e →
        e.message = Audio.INVALID_AUDIO_PAYLOAD) ∧
    (∀ v : Audio.JsValue,
      Audio.isInvalidAudioPayload v = true ↔
        ∃ e, v = Audio.JsValue.error e ∧
          e.message = Audio.INVALID_AUDIO_PAYLOAD) ∧
    (∀ (env : Audio.BrowserEnv) (b m : String) (e : Audio.JsError),
      Audio.base64ToBlobUrl env b m = Except.error e →
        Audio.isInvalidAudioPayload (Audio.JsValue.error e) = true) := by
  refine ⟨?_, ?_, ?_⟩
  · intro env b m e h
    unfold Audio.base64ToBlobUrl at h
    cases hx : (env.atob b).bind (fun bytes => env.createObjectURL bytes m) with
    | ok url => rw [hx] at h; exact absurd h (by simp)
    | error e0 =>
        rw [hx] at h
        simp only [Except.error.injEq] at h
        subst h
        rfl
  · intro v
    cases v with
    | error e =>
        constructor
        · intro h
          exact ⟨e, rfl, by simpa [Audio.isInvalidAudioPayload] using h⟩
        · rintro ⟨e0, he, hm⟩
          cases he
          simpa [Audio.isInvalidAudioPayload] using hm
    | nonError =>
        simp [Audio.isInvalidAudioPayload]
  · intro env b m e h
    unfold Audio.base64ToBlobUrl at h
    cases hx : (env.atob b).bind (fun bytes => env.createObjectURL bytes m) with
    | ok url => rw [hx] at h; exact absurd h (by simp)
    | error e0 =>
        rw [hx] at h
        simp only [Except.error.injEq] at h
        subst h
        rfl

/-- Witness for C10: a browser environment whose `atob` throws, evaluated at
a concrete payload, yields the invalid-audio-payload error, and the theorem
applies to it. -/
theorem c10_invalid_audio_payload_witness :
    Audio.isInvalidAudioPayload
      (Audio.JsValue.error ⟨Audio.INVALID_AUDIO_PAYLOAD⟩) = true :=
  c10_invalid_audio_payload.2.2
    ⟨fun _ => Except.error ⟨"InvalidCharacterError"⟩,
     fun bytes _ => Except.ok (toString bytes.length)⟩
    "%%%" "audio/webm" ⟨Audio.INVALID_AUDIO_PAYLOAD⟩ rfl

/-- Counterexample to claim C1: the state-change events delivered to the
popup cannot distinguish a Loading state from a Transcribing state, because
neither `"loading"` nor `"transcribing"` is a member of the `PopupState`
union of `Popup.tsx`; the union holds exactly
`"idle" | "recording" | "processing"`. -/
theorem c1_counterexample :
    Popup.popupStateOfString "loading" = none ∧
    Popup.popupStateOfString "transcribing" = none ∧
    "loading" ∉ Popup.popupStateStrings ∧
    "transcribing" ∉ Popup.popupStateStrings := by
  decide

/-- Claim C1 (amended): when a sufficiently long recording is deactivated
while the model is not resident, the popup observes the state-event sequence
idle, recording, processing, idle; the state-change events delivered to the
popup distinguish exactly the three states idle, recording and processing,
so loading and transcribing are merged into the single processing state. -/
theorem c1_popup_state_sequence :
    Popup.observedStates
        [Popup.PopupState.recording, Popup.PopupState.processing,
         Popup.PopupState.idle] =
      [Popup.PopupState.idle, Popup.PopupState.recording,
       Popup.PopupState.processing, Popup.PopupState.idle] ∧
    (∀ s : Popup.PopupState,
      s = Popup.PopupState.idle ∨ s = Popup.PopupState.recording ∨
        s = Popup.PopupState.processing) ∧
    Popup.popupStateStrings = ["idle", "recording", "processing"] := by
  refine ⟨rfl, ?_, rfl⟩
  intro s
  cases s
  · exact Or.inl rfl
  · exact Or.inr (Or.inl rfl)
  · exact Or.inr (Or.inr rfl)

/-- Claim C2: `ModelDownloadManager.start` is single-flight — while a job is
running it returns `alreadyRunning = true` and spawns no second worker;
otherwise it spawns one background worker and returns `started = true`. -/
theorem c2_start_single_flight :
    ∀ (s : Backend.DlMgrState) (modelId : String),
      (s.running = true →
        (Backend.dlStart s modelId).2.alreadyRunning = true ∧
          (Backend.dlStart s modelId).2.workersSpawned = 0) ∧
      (s.running = false →
        (Backend.dlStart s modelId).2.started = true ∧
          (Backend.dlStart s modelId).2.workersSpawned = 1) := by
  intro s modelId
  constructor <;> intro h <;> simp [Backend.dlStart, h]

/-- Witness for C2: with a job running, `start` reports `alreadyRunning` and
spawns nothing; from the idle manager it starts and spawns one worker. -/
theorem c2_start_single_flight_witness :
    (Backend.dlStart { Backend.dlIdle with running := true } "tiny").2.alreadyRunning = true ∧
    (Backend.dlStart { Backend.dlIdle with running := true } "tiny").2.workersSpawned = 0 ∧
    (Backend.dlStart Backend.dlIdle "tiny").2.started = true ∧
    (Backend.dlStart Backend.dlIdle "tiny").2.workersSpawned = 1 := by
  have h1 :=
    (c2_start_single_flight { Backend.dlIdle with running := true } "tiny").1 rfl
  have h2 := (c2_start_single_flight Backend.dlIdle "tiny").2 rfl
  exact ⟨h1.1, h1.2, h2.1, h2.2⟩

/-- Helper: when the cancellation flag becomes visible after `f` checks and
at least `f` chunks remain, the worker emits exactly `f` progress ticks and
then the terminal cancelled snapshot. -/
theorem workerRun_cancelled_shape (m : String) :
    ∀ (f r : Nat), f ≤ r →
      Backend.workerRun m r f =
        List.replicate f Backend.DlEvent.progress ++
          [Backend.DlEvent.terminal
            { model := m, success := false, cancelled := some true }] := by
  intro f
  induction f with
  | zero =>
      intro r _
      cases r <;> rfl
  | succ f ih =>
      intro r h
      cases r with
      | zero => omega
      | succ r0 =>
          have hf : f ≤ r0 := Nat.le_of_succ_le_succ h
          simp [Backend.workerRun, ih r0 hf, List.replicate_succ]

/-- Claim C3: a cancellation observed during an active download produces the
terminal cancelled snapshot within one sampling interval (exactly the
pending progress ticks precede it, and it is the last event), no success
event is ever emitted for that download, and the frontend turns the
cancelled completion into the cancelled state without a success callback. -/
theorem c3_cancel_terminal :
    ∀ (m : String) (r f : Nat) (s : MDP.CompState), f ≤ r →
      Backend.workerRun m r f =
        List.replicate f Backend.DlEvent.progress ++
          [Backend.DlEvent.terminal
            { model := m, success := false, cancelled := some true }] ∧
      (∀ e ∈ Backend.workerRun m r f, Backend.isSuccessEvent e = false) ∧
      (MDP.handleComplete s
          { model := m, success := false, cancelled := some true }).1.state =
        MDP.DownloadState.cancelled ∧
      (MDP.handleComplete s
          { model := m, success := false, cancelled := some true }).2 =
        [MDP.Call.onCancelCb] := by
  intro m r f s hfr
  have hshape := workerRun_cancelled_shape m f r hfr
  refine ⟨hshape, ?_, ?_, ?_⟩
  · intro e he
    rw [hshape] at he
    rcases List.mem_append.1 he with hp | ht
    · rcases List.eq_of_mem_replicate hp with rfl
      rfl
    · rcases List.mem_singleton.1 ht with rfl
      rfl
  · simp [MDP.handleComplete]
  · simp [MDP.handleComplete]

/-- Witness for C3: a worker with five chunks left whose flag is seen at the
third check emits two progress ticks then the terminal cancelled snapshot;
the frontend maps it to the cancelled state. -/
theorem c3_cancel_terminal_witness :
    Backend.workerRun "tiny" 5 2 =
      List.replicate 2 Backend.DlEvent.progress ++
        [Backend.DlEvent.terminal
          { model := "tiny", success := false, cancelled := some true }] ∧
    (∀ e ∈ Backend.workerRun "tiny" 5 2, Backend.isSuccessEvent e = false) ∧
    (MDP.handleComplete MDP.initComp
        { model := "tiny", success := false, cancelled := some true }).1.state =
      MDP.DownloadState.cancelled ∧
    (MDP.handleComplete MDP.initComp
        { model := "tiny", success := false, cancelled := some true }).2 =
      [MDP.Call.onCancelCb] :=
  c3_cancel_terminal "tiny" 5 2 MDP.initComp (by decide)

/-- Helper: after `load_model`, the resident handle matches the requested
model and resolved device, with a non-null model. -/
theorem load_model_resident (resolve : String → String) (s : Lifecycle.MLState)
    (m d : String) :
    ((Lifecycle.load_model resolve s m d).1).currentModelName = some m ∧
    ((Lifecycle.load_model resolve s m d).1).currentDevice = some (resolve d) ∧
    ((Lifecycle.load_model resolve s m d).1).model ≠ none := by
  simp only [Lifecycle.load_model]
  split
  · next hc => exact ⟨hc.1, hc.2.1, hc.2.2⟩
  · exact ⟨rfl, rfl, by simp⟩

/-- Helper: on a matching resident handle, `load_model` only cancels the
idle timer and reports that no load was performed. -/
theorem load_model_skip (resolve : String → String) (s : Lifecycle.MLState)
    (m d : String)
    (h : s.currentModelName = some m ∧ s.currentDevice = some (resolve d) ∧
      s.model ≠ none) :
    Lifecycle.load_model resolve s m d =
      ({ s with idleTimerPending := false }, false) := by
  simp only [Lifecycle.load_model]
  split
  · rfl
  · next hc => exact absurd ⟨h.1, h.2.1, h.2.2⟩ hc

/-- Helper: from a matching resident handle, any number of repeated
`load_model` calls performs zero loads. -/
theorem loadRepeat_matching (resolve : String → String) (m d : String) :
    ∀ (n : Nat) (s : Lifecycle.MLState),
      s.currentModelName = some m → s.currentDevice = some (resolve d) →
      s.model ≠ none →
      (Lifecycle.loadRepeat resolve s m d n).2 = 0 := by
  intro n
  induction n with
  | zero => intro s _ _ _; rfl
  | succ n ih =>
      intro s h1 h2 h3
      have hskip := load_model_skip resolve s m d ⟨h1, h2, h3⟩
      simp only [Lifecycle.loadRepeat, hskip]
      simpa using ih { s with idleTimerPending := false } h1 h2 h3

/-- Claim C4: `ensureLoaded` is idempotent — over any positive number of
repeated calls with identical arguments exactly one load happens when the
handle does not already match and zero when it does; on a matching handle
the call cancels the pending idle timer and returns without reloading. -/
theorem c4_ensure_loaded_idempotent :
    ∀ (resolve : String → String) (s : Lifecycle.MLState) (m d : String)
      (n : Nat), 1 ≤ n →
      (Lifecycle.loadRepeat resolve s m d n).2 =
        (if s.currentModelName = some m ∧ s.currentDevice = some (resolve d) ∧
            s.model ≠ none then 0 else 1) ∧
      (s.currentModelName = some m → s.currentDevice = some (resolve d) →
        s.model ≠ none →
        Lifecycle.load_model resolve s m d =
          ({ s with idleTimerPending := false }, false)) := by
  intro resolve s m d n hn
  constructor
  · cases n with
    | zero => omega
    | succ k =>
        by_cases hmatch : s.currentModelName = some m ∧
            s.currentDevice = some (resolve d) ∧ s.model ≠ none
        · rw [if_pos hmatch]
          exact loadRepeat_matching resolve m d (k + 1) s hmatch.1 hmatch.2.1
            hmatch.2.2
        · rw [if_neg hmatch]
          have hload : (Lifecycle.load_model resolve s m d).2 = true := by
            simp only [Lifecycle.load_model]
            split
            · next hc => exact absurd ⟨hc.1, hc.2.1, hc.2.2⟩ hmatch
            · rfl
          have hres := load_model_resident resolve s m d
          simp only [Lifecycle.loadRepeat]
          rw [hload]
          simp only [if_true]
          have hrest :=
            loadRepeat_matching resolve m d k
              (Lifecycle.load_model resolve s m d).1 hres.1 hres.2.1 hres.2.2
          omega
  · intro h1 h2 h3
    exact load_model_skip resolve s m d ⟨h1, h2, h3⟩

/-- Witness for C4: from an empty manager, three repeated
`load_model("tiny", "cpu")` calls perform exactly one load. -/
theorem c4_ensure_loaded_idempotent_witness :
    (Lifecycle.loadRepeat (fun p => p) Lifecycle.emptyML "tiny" "cpu" 3).2 = 1 := by
  have h :=
    (c4_ensure_loaded_idempotent (fun p => p) Lifecycle.emptyML "tiny" "cpu" 3
      (by decide)).1
  rw [h]
  rfl

/-- Claim C5: on deactivation with captured audio below the minimum
threshold, the session is discarded silently — the controller emits no
Loading or Transcribing state, runs no transcription, never invokes the
persistence collaborator, and returns directly to Idle. -/
theorem c5_short_audio_discarded :
    ∀ (modelResident historyDisabled : Bool) (durationMs thresholdMs : Nat),
      durationMs < thresholdMs →
      (Backend.onDeactivate modelResident historyDisabled durationMs
          thresholdMs).events = [Backend.CtrlState.Idle] ∧
      Backend.CtrlState.Loading ∉
        (Backend.onDeactivate modelResident historyDisabled durationMs
          thresholdMs).events ∧
      Backend.CtrlState.Transcribing ∉
        (Backend.onDeactivate modelResident historyDisabled durationMs
          thresholdMs).events ∧
      (Backend.onDeactivate modelResident historyDisabled durationMs
          thresholdMs).transcribed = false ∧
      (Backend.onDeactivate modelResident historyDisabled durationMs
          thresholdMs).persistCalls = 0 ∧
      (Backend.onDeactivate modelResident historyDisabled durationMs
          thresholdMs).finalState = Backend.CtrlState.Idle := by
  intro mr hd durationMs thresholdMs h
  simp [Backend.onDeactivate, if_pos h]

/-- Witness for C5: 200 ms of audio against a 500 ms threshold is discarded
with no Loading or Transcribing event and no persistence call. -/
theorem c5_short_audio_discarded_witness :
    (Backend.onDeactivate false false 200 500).events =
      [Backend.CtrlState.Idle] ∧
    Backend.CtrlState.Loading ∉
      (Backend.onDeactivate false false 200 500).events ∧
    Backend.CtrlState.Transcribing ∉
      (Backend.onDeactivate false false 200 500).events ∧
    (Backend.onDeactivate false false 200 500).transcribed = false ∧
    (Backend.onDeactivate false false 200 500).persistCalls = 0 ∧
    (Backend.onDeactivate false false 200 500).finalState =
      Backend.CtrlState.Idle :=
  c5_short_audio_discarded false false 200 500 (by decide)

/-- Counterexample to claim C6: the snapshot interface does not carry
exactly the five promised fields — `DownloadProgress` in `src/lib/types.ts`
carries a sixth field `model` in addition. -/
theorem c6_counterexample :
    Types.downloadProgressFields ≠
      ["percent", "downloadedBytes", "totalBytes", "speedBps", "etaSeconds"] ∧
    "model" ∈ Types.downloadProgressFields := by
  decide

/-- Claim C6 (amended): every download progress snapshot carries exactly the
fields model, percent, downloadedBytes, totalBytes, speedBps and etaSeconds,
and repeated `progress()` calls between samples return the latest throttled
snapshot unchanged. -/
theorem c6_snapshot_shape :
    Types.downloadProgressFields =
      ["model", "percent", "downloadedBytes", "totalBytes", "speedBps",
       "etaSeconds"] ∧
    (∀ s : Backend.DlMgrState, Backend.dlProgress s = (s, s.snapshot)) ∧
    (∀ (s : Backend.DlMgrState) (p : Types.DownloadProgress),
      (Backend.dlProgress (Backend.dlSample s p)).2 = some p) ∧
    (∀ s : Backend.DlMgrState,
      (Backend.dlProgress (Backend.dlProgress s).1).2 =
        (Backend.dlProgress s).2) := by
  exact ⟨rfl, fun s => rfl, fun s p => rfl, fun s => rfl⟩

/-- Claim C7: a failed download surfaces its error only as data in the
terminal completion snapshot (the worker boundary is a total function into
completion events, so nothing is thrown across the thread boundary); the
frontend records that message in its error state, progress events and
cancel clicks leave it in place, and the next successful `start()` clears
it. -/
theorem c7_error_surfacing :
    (∀ (m msg : String),
      Backend.workerBoundary m (Except.error msg) =
        { model := m, success := false, error := some msg }) ∧
    (∀ (s : MDP.CompState) (c : Types.DownloadComplete) (msg : String),
      c.success = false → c.cancelled ≠ some true → c.error = some msg →
      (MDP.handleComplete s c).1.error = some msg) ∧
    (∀ (s : MDP.CompState) (p : Types.DownloadProgress),
      (MDP.handleProgress s p).error = s.error) ∧
    (∀ s : MDP.CompState, (MDP.handleCancel s).1.error = s.error) ∧
    (∀ (s : MDP.CompState) (m : String)
      (r : Types.StartModelDownloadResult),
      (MDP.startDownload s m (Except.ok r)).1.error = none) := by
  refine ⟨fun m msg => rfl, ?_, fun s p => rfl, fun s => rfl, ?_⟩
  · intro s c msg hs hc he
    unfold MDP.handleComplete
    rw [if_neg (by simp [hs]), if_neg hc]
    simp [he]
  · intro s m r
    unfold MDP.startDownload
    by_cases h : r.alreadyCached = some true <;> simp [h]

/-- Witness for C7: a completion event with a network error message lands in
the component error state. -/
theorem c7_error_surfacing_witness :
    (MDP.handleComplete MDP.initComp
        { model := "tiny", success := false,
          error := some "network failure" }).1.error =
      some "network failure" :=
  c7_error_surfacing.2.1 MDP.initComp
    { model := "tiny", success := false, error := some "network failure" }
    "network failure" rfl (by decide) rfl

/-- Helper: on a non-popup route with settings loaded and onboarding
complete, the recovery-modal flag computed by the startup effect is the
negated cache bit of a successful cache check, and false on a thrown one. -/
theorem checkStartup_modelMissing (st : App.Settings)
    (f : String → Except String App.ModelInfo)
    (hob : st.onboardingComplete = true) :
    (App.checkStartup false (Except.ok st) f).modelMissing =
      (match f st.model with
        | Except.ok info => !info.cached
        | Except.error _ => false) := by
  cases hf : f st.model with
  | ok info =>
      cases hc : info.cached <;>
        simp [App.checkStartup, App.initApp, hob, hf, hc]
  | error e => simp [App.checkStartup, App.initApp, hob, hf]

/-- Claim C8: on a non-popup route with onboarding complete, the model
recovery modal opens exactly when `getModelInfo` reports the configured
model as not cached; a thrown cache check leaves the modal closed and
startup finishes normally. -/
theorem c8_model_recovery_modal :
    ∀ (st : App.Settings)
      (modelInfoRes : String → Except String App.ModelInfo),
      st.onboardingComplete = true →
      ((App.checkStartup false (Except.ok st) modelInfoRes).modelMissing =
          true ↔
        ∃ info, modelInfoRes st.model = Except.ok info ∧
          info.cached = false) ∧
      (∀ e, modelInfoRes st.model = Except.error e →
        (App.checkStartup false (Except.ok st) modelInfoRes).modelMissing =
            false ∧
          (App.checkStartup false (Except.ok st) modelInfoRes).loading =
            false) := by
  intro st f hob
  have hm := checkStartup_modelMissing st f hob
  constructor
  · constructor
    · intro h
      rw [hm] at h
      cases hf : f st.model with
      | ok info =>
          rw [hf] at h
          exact ⟨info, rfl, by simpa using h⟩
      | error e =>
          rw [hf] at h
          exact absurd h (by simp)
    · rintro ⟨info, hinfo, hcached⟩
      rw [hm, hinfo]
      simp [hcached]
  · intro e he
    refine ⟨?_, rfl⟩
    rw [hm, he]

/-- Witness for C8: a settings record with onboarding complete and a cache
check reporting the model as not cached opens the recovery modal. -/
theorem c8_model_recovery_modal_witness :
    (App.checkStartup false
        (Except.ok
          { language := "auto", model := "tiny", device := "auto",
            autoStart := false, retention := 30, theme := "system",
            onboardingComplete := true, microphone := 0,
            saveAudioToHistory := false, disableHistoryStorage := false,
            holdHotkey := "ctrl+win", holdHotkeyEnabled := true,
            toggleHotkey := "", toggleHotkeyEnabled := false })
        (fun _ =>
          Except.ok
            { name := "tiny", sizeBytes := 39,
              cached := false })).modelMissing = true :=
  ((c8_model_recovery_modal
      { language := "auto", model := "tiny", device := "auto",
        autoStart := false, retention := 30, theme := "system",
        onboardingComplete := true, microphone := 0,
        saveAudioToHistory := false, disableHistoryStorage := false,
        holdHotkey := "ctrl+win", holdHotkeyEnabled := true,
        toggleHotkey := "", toggleHotkeyEnabled := false }
      (fun _ =>
        Except.ok { name := "tiny", sizeBytes := 39, cached := false })
      rfl).1).mpr
    ⟨{ name := "tiny", sizeBytes := 39, cached := false }, rfl, rfl⟩

/-- Helper: `startDownload` never touches the `hasStarted` ref and issues
exactly one `api.startModelDownload` call. -/
theorem startDownload_ref_and_calls (s : MDP.CompState) (m : String)
    (res : Except String Types.StartModelDownloadResult) :
    ((MDP.startDownload s m res).1).hasStarted = s.hasStarted ∧
    MDP.startCalls (MDP.startDownload s m res).2 = 1 := by
  cases res with
  | ok r =>
      unfold MDP.startDownload
      by_cases h : r.alreadyCached = some true <;>
        simp [h, MDP.startCalls]
  | error msg =>
      unfold MDP.startDownload
      simp [MDP.startCalls]

/-- Helper: `handleComplete` never touches the `hasStarted` ref and issues
no `api.startModelDownload` call. -/
theorem handleComplete_ref_and_calls (s : MDP.CompState)
    (c : Types.DownloadComplete) :
    ((MDP.handleComplete s c).1).hasStarted = s.hasStarted ∧
    MDP.startCalls (MDP.handleComplete s c).2 = 0 := by
  unfold MDP.handleComplete
  by_cases h1 : c.success = true
  · simp [h1, MDP.startCalls]
  · rw [if_neg h1]
    by_cases h2 : c.cancelled = some true <;> simp [h2, MDP.startCalls]

/-- Helper: over any retry-free event sequence, the component issues at most
one download start when the `hasStarted` ref begins false, and none when it
begins true. -/
theorem run_no_retry_start_bound (m : String) :
    ∀ (evs : List MDP.Ev) (s : MDP.CompState),
      (∀ ev ∈ evs, MDP.isRetry ev = false) →
      MDP.startCalls (MDP.run m s evs).2 ≤ if s.hasStarted then 0 else 1 := by
  intro evs
  induction evs with
  | nil =>
      intro s _
      simp only [MDP.run, MDP.startCalls, List.countP_nil]
      split <;> omega
  | cons ev evs ih =>
      intro s hnr
      have hnr1 : ∀ e ∈ evs, MDP.isRetry e = false := fun e he =>
        hnr e (List.mem_cons_of_mem ev he)
      have happ : ∀ (a b : List MDP.Call),
          MDP.startCalls (a ++ b) = MDP.startCalls a + MDP.startCalls b :=
        fun a b => List.countP_append _ a b
      cases ev with
      | effect autoStart res =>
          simp only [MDP.run, MDP.step, MDP.effectRun]
          by_cases hcond : autoStart = true ∧ s.hasStarted = false ∧
              s.state = MDP.DownloadState.idle
          · rw [if_pos hcond]
            have hsd :=
              startDownload_ref_and_calls
                { s with hasStarted := true } m res
            obtain ⟨hsd1, hsd2⟩ := hsd
            have hrec :=
              ih (MDP.startDownload { s with hasStarted := true } m res).1 hnr1
            rw [hsd1] at hrec
            simp only [show ({ s with hasStarted := true } :
                MDP.CompState).hasStarted = true from rfl, if_pos] at hrec
            have hspl := happ
              (MDP.startDownload { s with hasStarted := true } m res).2
              (MDP.run m
                (MDP.startDownload { s with hasStarted := true } m res).1
                evs).2
            rw [hcond.2.1]
            simp only [Bool.false_eq_true, if_false]
            omega
          · rw [if_neg hcond]
            have hrec := ih s hnr1
            have := happ ([] : List MDP.Call) (MDP.run m s evs).2
            simp only [List.nil_append]
            exact hrec
      | progressEvt p =>
          simp only [MDP.run, MDP.step]
          have hrec := ih (MDP.handleProgress s p) hnr1
          have hhs : (MDP.handleProgress s p).hasStarted = s.hasStarted := rfl
          rw [hhs] at hrec
          simpa using hrec
      | completeEvt c =>
          simp only [MDP.run, MDP.step]
          have hc := handleComplete_ref_and_calls s c
          have hrec := ih (MDP.handleComplete s c).1 hnr1
          rw [hc.1] at hrec
          have := happ (MDP.handleComplete s c).2
            (MDP.run m (MDP.handleComplete s c).1 evs).2
          omega
      | cancelClick =>
          simp only [MDP.run, MDP.step, MDP.handleCancel]
          have hrec := ih s hnr1
          have hone : MDP.startCalls
              ([MDP.Call.apiCancelModelDownload] ++ (MDP.run m s evs).2) =
              MDP.startCalls (MDP.run m s evs).2 := by
            rw [happ]
            simp [MDP.startCalls]
          rw [hone]
          exact hrec
      | retryClick res =>
          exact absurd (hnr (MDP.Ev.retryClick res) (List.mem_cons_self _ _))
            (by simp [MDP.isRetry])

/-- Claim C9: for any single mount of `ModelDownloadProgress`, the
auto-start effect invokes `api.startModelDownload` at most once over any
sequence of effect re-runs and other events that contains no explicit
retry, because the `hasStarted` ref is set before starting and only a retry
resets it. -/
theorem c9_auto_start_at_most_once :
    ∀ (m : String) (evs : List MDP.Ev),
      (∀ ev ∈ evs, MDP.isRetry ev = false) →
      MDP.startCalls (MDP.run m MDP.initComp evs).2 ≤ 1 := by
  intro m evs hnr
  have h := run_no_retry_start_bound m evs MDP.initComp hnr
  simpa [MDP.initComp] using h

/-- Witness for C9: three consecutive auto-start effect runs issue at most
one download start. -/
theorem c9_auto_start_at_most_once_witness :
    MDP.startCalls
      (MDP.run "tiny" MDP.initComp
        [MDP.Ev.effect true
          (Except.ok { success := true, started := some true }),
         MDP.Ev.effect true
          (Except.ok { success := true, started := some true }),
         MDP.Ev.effect true
          (Except.ok { success := true, started := some true })]).2 ≤ 1 :=
  c9_auto_start_at_most_once "tiny" _ (by decide)
